import Mathlib

/-!
Verification of the session data cache and the paginated list coordinator of the
immigration-case-manager frontend.

The definitions below are a shallow embedding of the relevant source files:

* `src/src/components/Templates.tsx` — the Templates list coordinator
  (initial load effect, cache resync effect, `loadTemplatesFromAPI`,
  `handleLoadMore`, the debounced search `onChange` handler, `confirmDelete`);
* `src/src/main.tsx` (the `DataContext` provider section) — the session data
  cache (`loadAllData`, `refreshTemplates`, `invalidateCache`, `isStale`,
  the auto-refresh interval effect);
* `src/src/utils/api.ts` — the backend request constructors;
* the Clients component (in the repository README document) — its search
  `onChange` handler and cleanup effect.

JavaScript idioms are translated explicitly: `number | null` becomes
`Option Nat`, JS falsiness of `0` and of the empty string is spelled out,
`x || d` on an optional field becomes `Option.getD`, extra call arguments
that the callee does not declare are dropped, and fallible fetches return
`Except`.
-/

/-- Entity of the templates collection. The source type `CaseTemplate`
(`src/types.ts`) carries further fields (description, required documents,
intervals); the coordinator logic only reads `id` for keys and lookups, so the
embedding keeps `id` and `name`. -/
structure CaseTemplate where
  id : String
  name : String
deriving Repr, DecidableEq

/-- Entity of the clients collection; only the identifier is read by the
coordination logic. -/
structure Client where
  id : String
deriving Repr, DecidableEq

/-- Entity of the reminders collection; only the identifier is read by the
coordination logic. -/
structure Reminder where
  id : String
deriving Repr, DecidableEq

/-- Shape of a backend collection response: either a bare array, or a
structured page object whose fields may each be missing. In the source the
items field is named after the kind (`templates` in Templates.tsx line 80,
`clients` in the Clients component); `items?` stands for that field. -/
inductive PageResp (α : Type) where
  | arr (xs : List α)
  | obj (items? : Option (List α)) (total? : Option Nat) (hasMore? : Option Bool)
deriving Repr, DecidableEq

/-- From `main.tsx` line 284: `Array.isArray(d) ? d : (d.templates || [])`
(and line 285, the same with `.clients`). A bare array is used directly; an
object contributes its items field, defaulting to the empty array. -/
def pageItems {α : Type} : PageResp α → List α
  | .arr xs => xs
  | .obj items? _ _ => items?.getD []

/-- A backend request as the frontend issues it: method, path and the query
parameters appended to the URL. -/
structure ApiRequest where
  method : String
  path : String
  query : List (String × String)
deriving Repr, DecidableEq

/-- From `api.ts` lines 36-51: `getCaseTemplates()` declares NO parameters and
fetches `API_URL + "/case-templates"` with no query string. JavaScript ignores
extra call arguments, so the `(limit, offset, search)` arguments supplied at
the call site in `Templates.tsx` line 77 are modelled as binders the request
does not depend on. -/
def getCaseTemplatesRequest (_limit _offset : Nat) (_search : Option String) : ApiRequest :=
  { method := "GET", path := "/case-templates", query := [] }

/-- Page size of the list coordinators (`Templates.tsx` line 21 and the
Clients component: `const LIMIT = 25`). -/
def LIMIT : Nat := 25

/-- JavaScript `value.trim()`: strips leading and trailing whitespace.
Defined over the character list so that it evaluates inside the kernel. -/
def jsTrim (value : String) : String :=
  String.mk (((value.toList.dropWhile Char.isWhitespace).reverse.dropWhile Char.isWhitespace).reverse)

/-- From `Templates.tsx` lines 67-77: the coordinator fetch uses offset `0` on
a reset and the current offset otherwise, and forwards `(LIMIT, currentOffset,
searchTerm)` to `api.getCaseTemplates`. -/
def templatesFetchRequest (reset : Bool) (offset : Nat) (searchTerm : Option String) : ApiRequest :=
  getCaseTemplatesRequest LIMIT (if reset then 0 else offset) searchTerm

/-- The React state of the Templates coordinator (`Templates.tsx` lines
15-28). `hasInitialized` is the `useRef` flag of line 28. -/
structure TemplatesState where
  templates : List CaseTemplate
  loading : Bool
  loadingMore : Bool
  hasMore : Bool
  total : Nat
  offset : Nat
  searchQuery : String
  hasInitialized : Bool
deriving Repr, DecidableEq

/-- The `useState` and `useRef` initial values of `Templates.tsx` lines 15-28. -/
def initialTemplatesState : TemplatesState :=
  { templates := [], loading := true, loadingMore := false, hasMore := false,
    total := 0, offset := 0, searchQuery := "", hasInitialized := false }

/-- From `Templates.tsx` lines 79-96, the response-shape handling of
`loadTemplatesFromAPI`: a structured page whose `templates` field is an array
is adopted (replacing on reset, appending otherwise) with
`hasMore = data.hasMore || false`, `total = data.total || 0` and the offset
advanced by the number of items; a bare array replaces the list as a single
complete page; any other value changes nothing. -/
def applyTemplatesResp (reset : Bool) (currentOffset : Nat) (data : PageResp CaseTemplate)
    (s : TemplatesState) : TemplatesState :=
  match data with
  | .obj (some ts) total? hasMore? =>
      { s with templates := if reset then ts else s.templates ++ ts,
               hasMore := hasMore?.getD false,
               total := total?.getD 0,
               offset := currentOffset + ts.length }
  | .arr xs =>
      { s with templates := xs, hasMore := false, total := xs.length, offset := xs.length }
  | .obj none _ _ => s

/-- From `Templates.tsx` lines 67-104 (`loadTemplatesFromAPI`). On reset the
loading flag is raised and the offset cleared before the fetch; the awaited
response is then folded in by `applyTemplatesResp` and `hasInitialized` is
set; a rejected fetch is caught (second component `true` records that the
catch block reported the error) leaving the list untouched; `finally` clears
both loading flags. -/
def loadTemplatesFromAPI (reset : Bool) (resp : Except Unit (PageResp CaseTemplate))
    (s : TemplatesState) : TemplatesState × Bool :=
  let s1 := if reset then { s with loading := true, offset := 0 }
            else { s with loadingMore := true }
  let currentOffset := if reset then 0 else s.offset
  match resp with
  | .ok data =>
      let s2 := applyTemplatesResp reset currentOffset data s1
      ({ s2 with hasInitialized := true, loading := false, loadingMore := false }, false)
  | .error _ =>
      ({ s1 with loading := false, loadingMore := false }, true)

/-- From `Templates.tsx` lines 31-49, the mount-time effect: when not yet
initialized and no search term is active, a non-empty cache is sliced locally
(first `LIMIT` items, `total` the cache length, `hasMore` whenever the cache
exceeds `LIMIT`, offset the number of items shown); an empty cache triggers
one backend call whose response `resp` is adopted by `loadTemplatesFromAPI`,
and the initialized flag is set (line 47). -/
def initialLoadTemplatesEffect (cachedTemplates : List CaseTemplate)
    (resp : Except Unit (PageResp CaseTemplate)) (s : TemplatesState) : TemplatesState :=
  if s.hasInitialized then s
  else if jsTrim s.searchQuery != "" then s
  else if cachedTemplates.length > 0 then
    let initialTemplates := cachedTemplates.take LIMIT
    { s with templates := initialTemplates,
             total := cachedTemplates.length,
             hasMore := decide (cachedTemplates.length > LIMIT),
             offset := initialTemplates.length,
             loading := false,
             hasInitialized := true }
  else
    let s1 := (loadTemplatesFromAPI true resp s).1
    { s1 with hasInitialized := true }

/-- From `Templates.tsx` lines 51-64, the cache resync effect that runs when
the cached collection changes: it bails out before initialization, while a
search term is active, and unless the cache length differs from `total`;
otherwise it re-slices the first page from the cache. -/
def cacheResyncEffect (cachedTemplates : List CaseTemplate) (s : TemplatesState) : TemplatesState :=
  if !s.hasInitialized then s
  else if jsTrim s.searchQuery != "" then s
  else if cachedTemplates.length > 0 && cachedTemplates.length != s.total then
    let initialTemplates := cachedTemplates.take LIMIT
    { s with templates := initialTemplates,
             total := cachedTemplates.length,
             hasMore := decide (cachedTemplates.length > LIMIT),
             offset := initialTemplates.length }
  else s

/-- From `Templates.tsx` lines 121-134 (`handleLoadMore`). With a search term
the next page is fetched from the backend (`resp` is that response); otherwise
`slice(offset, offset + LIMIT)` of the cache is appended, the offset advanced
by the number of appended items, and `hasMore` recomputed against the cache
length; an empty slice changes nothing. -/
def handleLoadMore (cachedTemplates : List CaseTemplate)
    (resp : Except Unit (PageResp CaseTemplate)) (s : TemplatesState) : TemplatesState :=
  if jsTrim s.searchQuery != "" then
    (loadTemplatesFromAPI false resp s).1
  else
    let nextTemplates := (cachedTemplates.drop s.offset).take LIMIT
    if nextTemplates.length > 0 then
      { s with templates := s.templates ++ nextTemplates,
               offset := s.offset + nextTemplates.length,
               hasMore := decide (s.offset + nextTemplates.length < cachedTemplates.length) }
    else s

/-- The cache-driven pagination run of claim C1: mount-time load from the
cache followed by `k` Load More clicks, with no search term active (the
backend response argument is never consulted on this path and is passed as an
error to make that manifest). -/
def templatesAfterLoads (cached : List CaseTemplate) : Nat → TemplatesState
  | 0 => initialLoadTemplatesEffect cached (Except.error ()) initialTemplatesState
  | k + 1 => handleLoadMore cached (Except.error ()) (templatesAfterLoads cached k)

/-- From `Templates.tsx` lines 141-155 (`confirmDelete`) combined with the
resync effect, in source event-loop order: after `api.deleteCaseTemplate`
succeeds and `await refreshTemplates()` resolves (the context cache now holds
`refreshedCache`), the promise continuation sets `hasInitialized.current =
false` (line 148) BEFORE React runs the passive cache-resync effect for the
commit produced by `refreshTemplates` (React schedules passive effects in a
later task than the promise microtask). The effect therefore observes
`hasInitialized = false`. -/
def confirmDeleteCommitted (refreshedCache : List CaseTemplate) (s : TemplatesState) : TemplatesState :=
  cacheResyncEffect refreshedCache { s with hasInitialized := false }

/-- The state held by the `DataProvider` of the `DataContext` section of
`main.tsx` (lines 256-261): the three cached collections, the loading flag,
the fetch timestamp (`number | null`) and the initialization flag. -/
structure DataState where
  clients : List Client
  templates : List CaseTemplate
  reminders : List Reminder
  loading : Bool
  lastFetchTime : Option Nat
  isInitialized : Bool
deriving Repr, DecidableEq

/-- The `useState` initial values of `main.tsx` lines 256-261. -/
def initialDataState : DataState :=
  { clients := [], templates := [], reminders := [], loading := true,
    lastFetchTime := none, isInitialized := false }

/-- Cache staleness threshold, `main.tsx` line 253: five minutes. -/
def CACHE_DURATION : Nat := 5 * 60 * 1000

/-- JavaScript truthiness of the `number | null` fetch timestamp: `null` is
falsy, and so is the number `0` (`!lastFetchTime` in `main.tsx` lines 380 and
386 is true in both cases). -/
def jsTruthyTime : Option Nat → Bool
  | none => false
  | some t => t != 0

/-- From `main.tsx` lines 379-382 (`isStale`): true when the timestamp is
falsy, otherwise when `Date.now() - lastFetchTime > maxAge`. The JS
subtraction can be negative, hence the comparison is taken over `Int`. -/
def isStale (lastFetchTime : Option Nat) (now maxAge : Nat) : Bool :=
  if !jsTruthyTime lastFetchTime then true
  else decide ((now : Int) - ((lastFetchTime.getD 0 : Nat) : Int) > (maxAge : Int))

/-- From `main.tsx` lines 374-376 (`invalidateCache`): only the fetch
timestamp is cleared. -/
def invalidateCache (s : DataState) : DataState :=
  { s with lastFetchTime := none }

/-- From `main.tsx` lines 264-299 (`loadAllData`). Without an authenticated
user the load is skipped. Otherwise the three collections are fetched in
parallel (`Promise.all`), so the success branch runs only when all three
resolved; any rejection lands in the catch block, which reports the error
(`console.error`, modelled by the second component being `true`) and touches
no data. `finally` clears the loading flag. -/
def loadAllData (user : Bool)
    (tRes : Except Unit (PageResp CaseTemplate))
    (cRes : Except Unit (PageResp Client))
    (rRes : Except Unit (List Reminder))
    (now : Nat) (s : DataState) : DataState × Bool :=
  if !user then ({ s with loading := false }, false)
  else
    match tRes, cRes, rRes with
    | .ok td, .ok cd, .ok rd =>
        ({ s with templates := pageItems td, clients := pageItems cd, reminders := rd,
                  lastFetchTime := some now, loading := false }, false)
    | _, _, _ => ({ s with loading := false }, true)

/-- From `main.tsx` lines 343-354 (`refreshTemplates`): on success the
templates collection is replaced (bare array or `.templates || []`) and the
fetch timestamp updated; the other two collections are untouched. A failure
is caught and changes nothing. -/
def refreshTemplates (res : Except Unit (PageResp CaseTemplate)) (now : Nat)
    (s : DataState) : DataState :=
  match res with
  | .ok d => { s with templates := pageItems d, lastFetchTime := some now }
  | .error _ => s

/-- Debounce timer state of the search input (`searchTimeoutRef` in
`Templates.tsx` line 27): at most one pending timeout, holding its deadline
and the input value its callback captured, plus the values whose callbacks
have run, in execution order. -/
structure DebounceState where
  pending : Option (Nat × String)
  fired : List String
deriving Repr, DecidableEq

/-- No timer pending, nothing fired. -/
def initDebounce : DebounceState := { pending := none, fired := [] }

/-- Debounce delay of the search input, `Templates.tsx` line 227: 500 ms. -/
def SEARCH_DEBOUNCE_MS : Nat := 500

/-- Event-loop bookkeeping: a pending timeout whose deadline has been reached
by `now` fires (its captured value is appended to `fired`). -/
def fireDue (now : Nat) (s : DebounceState) : DebounceState :=
  match s.pending with
  | some pv => if pv.1 ≤ now then { pending := none, fired := s.fired ++ [pv.2] } else s
  | none => s

/-- From `Templates.tsx` lines 205-228, the search input `onChange` handler at
time `now` with input `value`: any timer already due has fired beforehand;
`clearTimeout` then cancels the pending timer and a fresh 500 ms timeout
capturing `value` replaces it. -/
def onSearchChange (now : Nat) (value : String) (s : DebounceState) : DebounceState :=
  let s1 := fireDue now s
  { s1 with pending := some (now + SEARCH_DEBOUNCE_MS, value) }

/-- After the input goes quiet, the remaining pending timer (if any) fires. -/
def quiesce (s : DebounceState) : DebounceState :=
  match s.pending with
  | some pv => { pending := none, fired := s.fired ++ [pv.2] }
  | none => s

/-- The values whose debounce callbacks execute, in order, for a sequence of
`onChange` events given as (time, input value) pairs in chronological order. -/
def runDebounce (events : List (Nat × String)) : List String :=
  (quiesce (events.foldl (fun s e => onSearchChange e.1 e.2 s) initDebounce)).fired

/-- From `Templates.tsx` lines 215-227, the body of the debounce callback: a
value that trims non-empty issues a backend search with the trimmed term;
an empty one resets the list from the cache and makes no backend call. -/
def debounceBackendTerm (value : String) : Option String :=
  if jsTrim value != "" then some (jsTrim value) else none

/-- The backend search terms actually sent for a sequence of `onChange`
events. -/
def debouncedBackendCalls (events : List (Nat × String)) : List String :=
  (runDebounce events).filterMap debounceBackendTerm

/-- State of the `DataProvider` machinery for the background-refresh claims:
the data state, the number of `loadAllData` invocations currently awaiting
their `Promise.all` (in flight), and how many invocations the background
stale-check interval has made. -/
structure ProviderState where
  data : DataState
  inFlight : Nat
  bgStarts : Nat
deriving Repr, DecidableEq

/-- Provider start state. -/
def initialProviderState : ProviderState :=
  { data := initialDataState, inFlight := 0, bgStarts := 0 }

/-- From `main.tsx` lines 385-386: the auto-refresh interval effect returns
early (registering no interval) unless `isInitialized` and `lastFetchTime`
are both truthy. -/
def autoRefreshRegistered (s : ProviderState) : Bool :=
  s.data.isInitialized && jsTruthyTime s.data.lastFetchTime

/-- Events of the provider machinery:
* `loginStart` — `checkUser` (lines 305-311) finds a user: `loadAllData()` is
  invoked (fetches go in flight, loading set) and `setIsInitialized(true)`;
* `finishSuccess` — an in-flight `loadAllData` resolves with all three
  fetches ok at time `now` (success branch of lines 277-291);
* `finishFailure` — an in-flight `loadAllData` hits its catch block;
* `refreshSuccess` — a single-collection refresh such as `refreshTemplates`
  (lines 343-354) resolves at time `now`, replacing that collection and the
  timestamp (the templates kind stands for all three);
* `tick` — the 60-second stale-check interval callback (lines 388-393) runs
  at time `now`: when registered and `isStale()`, it invokes `loadAllData()`
  — the source contains no in-flight guard;
* `invalidate` — `invalidateCache` (lines 374-376). -/
inductive ProviderEvent where
  | loginStart
  | finishSuccess (now : Nat) (ts : List CaseTemplate) (cs : List Client) (rs : List Reminder)
  | finishFailure
  | refreshSuccess (now : Nat) (ts : List CaseTemplate)
  | tick (now : Nat)
  | invalidate
deriving Repr, DecidableEq

/-- Whether an event records a successful fetch into the fetch timestamp
(full `loadAllData` completion or a single-collection refresh). -/
def ProviderEvent.recordsFetch : ProviderEvent → Bool
  | .finishSuccess _ _ _ _ => true
  | .refreshSuccess _ _ => true
  | _ => false

/-- Whether an event is a successful completion of `loadAllData` itself. -/
def ProviderEvent.isLoadAllSuccess : ProviderEvent → Bool
  | .finishSuccess _ _ _ _ => true
  | _ => false

/-- One step of the provider machinery; each branch mirrors the source lines
cited at `ProviderEvent`. `finishSuccess`/`finishFailure` with nothing in
flight are no-ops (there is no promise to resolve). -/
def stepP (s : ProviderState) : ProviderEvent → ProviderState
  | .loginStart =>
      let d := { s.data with isInitialized := true, loading := true }
      { s with data := d, inFlight := s.inFlight + 1 }
  | .finishSuccess now ts cs rs =>
      if s.inFlight = 0 then s else
      let d := { s.data with templates := ts, clients := cs, reminders := rs,
                             lastFetchTime := some now, loading := false }
      { s with data := d, inFlight := s.inFlight - 1 }
  | .finishFailure =>
      if s.inFlight = 0 then s else
      let d := { s.data with loading := false }
      { s with data := d, inFlight := s.inFlight - 1 }
  | .refreshSuccess now ts =>
      let d := { s.data with templates := ts, lastFetchTime := some now }
      { s with data := d }
  | .tick now =>
      if autoRefreshRegistered s && isStale s.data.lastFetchTime now CACHE_DURATION then
        let d := { s.data with loading := true }
        { s with data := d, inFlight := s.inFlight + 1, bgStarts := s.bgStarts + 1 }
      else s
  | .invalidate =>
      let d := { s.data with lastFetchTime := none }
      { s with data := d }

/-- Run the provider machinery from a given state through a list of events. -/
def runFrom (s : ProviderState) (events : List ProviderEvent) : ProviderState :=
  events.foldl stepP s

/-- Run the provider machinery from the start state. -/
def runP (events : List ProviderEvent) : ProviderState :=
  runFrom initialProviderState events

/-- Every identifier in scope inside the Clients component (the Clients
source in the repository README document): its imports (lines 188-197), the
`useState`, `const` and function declarations of the component body (lines
199-211, 272-335), and the browser globals the handlers use. The component
declares NO `searchTimeoutRef`. -/
def clientsComponentScope : List String :=
  [ "useState", "useEffect", "useRef",
    "Plus", "Users", "Trash2", "Search", "X",
    "api", "Client", "CreateClientModal", "ClientDetailsModal", "ConfirmDialog",
    "showToast", "t", "SkeletonClientCard",
    "clients", "setClients", "loading", "setLoading",
    "loadingMore", "setLoadingMore", "hasMore", "setHasMore",
    "total", "setTotal", "offset", "setOffset", "LIMIT",
    "showCreateModal", "setShowCreateModal", "selectedClient", "setSelectedClient",
    "deleteConfirm", "setDeleteConfirm", "searchQuery", "setSearchQuery",
    "forceUpdate",
    "loadClients", "handleLoadMore", "handleDeleteClient", "confirmDelete",
    "filteredClients",
    "setTimeout", "clearTimeout", "Date", "document", "window", "console" ]

/-- Identifiers the same Clients component declares in the Templates
component instead declare `searchTimeoutRef` and `hasInitialized`
(`Templates.tsx` lines 27-28); this scope witnesses that the handler model
distinguishes the two components. -/
def templatesComponentScope : List String :=
  clientsComponentScope ++ ["searchTimeoutRef", "hasInitialized", "refreshTemplates", "cachedTemplates"]

/-- Outcome of running a search-input `onChange` handler: either a debounce
timeout was scheduled with the given delay, or evaluation threw a
`ReferenceError` on an identifier not in scope. -/
inductive SearchHandlerResult where
  | scheduled (delayMs : Nat)
  | refError (name : String)
deriving Repr, DecidableEq

/-- The Clients search-input `onChange` handler (README Clients source, lines
382-395), statement by statement, each resolving its free identifiers in the
component scope; an unbound identifier raises a `ReferenceError` and aborts
the handler before later statements run:
1. `setSearchQuery(value)`;
2. `if (searchTimeoutRef.current) { clearTimeout(searchTimeoutRef.current) }`;
3. `searchTimeoutRef.current = setTimeout(() => loadClients(true), 500)`. -/
def clientsSearchOnChange (scope : List String) : SearchHandlerResult :=
  if !scope.contains "setSearchQuery" then .refError "setSearchQuery"
  else if !scope.contains "searchTimeoutRef" then .refError "searchTimeoutRef"
  else .scheduled 500

/-- Free identifiers of the Clients unmount cleanup effect body (README
Clients source, lines 263-269): it removes the language listener and reads
`searchTimeoutRef.current` to clear the timeout. -/
def clientsCleanupEffectRefs : List String :=
  ["window", "searchTimeoutRef", "clearTimeout"]

/-- Invariant of the cache-driven (no active search) pagination of the
Templates coordinator: the visible list is exactly the cache prefix of
length `offset`, the offset never exceeds the cache, `total` is the cache
length, and `hasMore` says whether the prefix is proper. -/
def noSearchInv (cached : List CaseTemplate) (s : TemplatesState) : Prop :=
  s.templates = cached.take s.offset ∧
  s.offset ≤ cached.length ∧
  s.total = cached.length ∧
  s.hasMore = decide (s.offset < cached.length) ∧
  s.searchQuery = ""

/-- Sixty templates with pairwise-distinct identifiers: the cache of the
scenario in claim C1. -/
def cached60 : List CaseTemplate :=
  (List.range 60).map (fun i => { id := toString i, name := "" })

/-- A template returned by the backend when the mount-time cache is empty. -/
def tmplX : CaseTemplate := { id := "x1", name := "X" }

/-- First template of the deletion scenario of claim C7. -/
def tmplA : CaseTemplate := { id := "a1", name := "Alpha" }

/-- Second template of the deletion scenario of claim C7 (the one deleted). -/
def tmplB : CaseTemplate := { id := "b2", name := "Beta" }

/-- Provider trace: the login-driven load fails, a single-collection refresh
then succeeds at time 1000, and the stale-check interval ticks at time
400000 — with no successful `loadAllData` anywhere in the trace. -/
def traceA : List ProviderEvent :=
  [ProviderEvent.loginStart, ProviderEvent.finishFailure,
   ProviderEvent.refreshSuccess 1000 [], ProviderEvent.tick 400000]

/-- Provider trace: the login-driven load succeeds at time 1000; the
stale-check interval ticks at 400000 (starting a refresh) and again at
460000 while that refresh is still in flight. -/
def traceB : List ProviderEvent :=
  [ProviderEvent.loginStart, ProviderEvent.finishSuccess 1000 [] [] [],
   ProviderEvent.tick 400000, ProviderEvent.tick 460000]

/-- A provider state with one `loadAllData` in flight and a stale registered
interval (initialized, fetched last at time 1000). -/
def busyProviderState : ProviderState :=
  { data := { clients := [], templates := [], reminders := [], loading := true,
              lastFetchTime := some 1000, isInitialized := true },
    inFlight := 1, bgStarts := 1 }

/-- Events recording no successful fetch: used to instantiate the
no-fetch hypotheses of the background-refresh theorems. -/
def quietEvents : List ProviderEvent :=
  [ProviderEvent.loginStart, ProviderEvent.finishFailure,
   ProviderEvent.tick 999999, ProviderEvent.invalidate]

/-- The empty search box trims to the empty string. -/
theorem jsTrim_empty : jsTrim "" = "" := by decide

/-- Claim C2 (code bug): the search-driven `loadFirstPage` of the Templates
coordinator issues its backend GET with NO query parameters at all — in
particular no `search` term — because `api.getCaseTemplates` declares no
parameters and JavaScript drops the `(limit, offset, search)` arguments the
component passes. The claim, by contrast, requires the request to carry
`offset=0`, `limit=L` and `search=term`. -/
theorem search_request_has_no_params :
    (templatesFetchRequest true 0 (some "visa")).query = [] ∧
    (∀ (l o : Nat) (t : Option String), (getCaseTemplatesRequest l o t).query = []) :=
  ⟨rfl, fun _ _ _ => rfl⟩

/-- Claim C4: a bare-array response is adopted as a single complete page
(visible list the array, `total` its length, `hasMore` false); a structured
page object carrying an items array is adopted with a missing `total`
defaulting to 0 and a missing `hasMore` defaulting to false (replacing on a
reset fetch, appending otherwise); neither shape makes the fetch report an
error. -/
theorem response_shape_tolerance (xs : List CaseTemplate) (total? : Option Nat)
    (hasMore? : Option Bool) (s : TemplatesState) (reset : Bool) :
    ((loadTemplatesFromAPI reset (Except.ok (PageResp.arr xs)) s).1.templates = xs ∧
     (loadTemplatesFromAPI reset (Except.ok (PageResp.arr xs)) s).1.total = xs.length ∧
     (loadTemplatesFromAPI reset (Except.ok (PageResp.arr xs)) s).1.hasMore = false ∧
     (loadTemplatesFromAPI reset (Except.ok (PageResp.arr xs)) s).2 = false) ∧
    ((loadTemplatesFromAPI true (Except.ok (PageResp.obj (some xs) total? hasMore?)) s).1.templates = xs ∧
     (loadTemplatesFromAPI true (Except.ok (PageResp.obj (some xs) total? hasMore?)) s).1.total = total?.getD 0 ∧
     (loadTemplatesFromAPI true (Except.ok (PageResp.obj (some xs) total? hasMore?)) s).1.hasMore = hasMore?.getD false ∧
     (loadTemplatesFromAPI true (Except.ok (PageResp.obj (some xs) total? hasMore?)) s).2 = false) ∧
    ((loadTemplatesFromAPI false (Except.ok (PageResp.obj (some xs) total? hasMore?)) s).1.templates = s.templates ++ xs ∧
     (loadTemplatesFromAPI false (Except.ok (PageResp.obj (some xs) total? hasMore?)) s).2 = false) := by
  refine ⟨⟨?_, ?_, ?_, ?_⟩, ⟨?_, ?_, ?_, ?_⟩, ⟨?_, ?_⟩⟩ <;>
    simp [loadTemplatesFromAPI, applyTemplatesResp]

/-- Claim C9: the Clients component references `searchTimeoutRef` in its
search `onChange` handler and in its cleanup effect, but never declares it,
so the handler throws a `ReferenceError` on that identifier before any
debounce timeout is scheduled: the debounced backend-search path of the
Clients view is unreachable. -/
theorem clients_search_throws_reference_error :
    clientsSearchOnChange clientsComponentScope
        = SearchHandlerResult.refError "searchTimeoutRef" ∧
    "searchTimeoutRef" ∉ clientsComponentScope ∧
    "searchTimeoutRef" ∈ clientsCleanupEffectRefs ∧
    ∀ d, clientsSearchOnChange clientsComponentScope ≠ SearchHandlerResult.scheduled d := by
  refine ⟨by decide, by decide, by decide, ?_⟩
  intro d h
  rw [show clientsSearchOnChange clientsComponentScope
        = SearchHandlerResult.refError "searchTimeoutRef" from by decide] at h
  exact SearchHandlerResult.noConfusion h

/-- The same handler model run over the Templates component scope (which does
declare `searchTimeoutRef`, `Templates.tsx` line 27) schedules the debounce:
the `ReferenceError` above is specific to the Clients component. -/
theorem templates_search_schedules :
    clientsSearchOnChange templatesComponentScope = SearchHandlerResult.scheduled 500 := by
  decide

/-- Claim C7 (code bug), evaluated at the failing input: the cache holds
`[tmplA, tmplB]` and is shown in full; deleting `tmplB` succeeds on the
backend and the refreshed cache is `[tmplA]`, yet the visible list still
shows both templates with `total = 2` — `confirmDelete` clears
`hasInitialized` before the resync effect runs, and that effect returns
early whenever the flag is cleared, so the pagination reset its own comments
promise never happens. -/
theorem mutation_resync_skipped :
    (confirmDeleteCommitted [tmplA]
        (initialLoadTemplatesEffect [tmplA, tmplB] (Except.error ()) initialTemplatesState)).templates
      = [tmplA, tmplB] ∧
    (confirmDeleteCommitted [tmplA]
        (initialLoadTemplatesEffect [tmplA, tmplB] (Except.error ()) initialTemplatesState)).total = 2 ∧
    (confirmDeleteCommitted [tmplA]
        (initialLoadTemplatesEffect [tmplA, tmplB] (Except.error ()) initialTemplatesState)).templates
      ≠ [tmplA] := by
  refine ⟨by decide, by decide, by decide⟩

/-- Counterexample to claim C1 as stated: with an EMPTY cached collection and
no search term, the mount-time load does not slice the (empty) cache — it
falls back to one backend call and adopts its response, here a bare array of
one template, so the visible list has 1 item and `total = 1` instead of the
first `min(L, 0) = 0` cache items and `total = 0`. -/
theorem templates_cache_pagination_cex :
    (initialLoadTemplatesEffect [] (Except.ok (PageResp.arr [tmplX])) initialTemplatesState).templates
        ≠ ([] : List CaseTemplate).take (min ([] : List CaseTemplate).length LIMIT) ∧
    (initialLoadTemplatesEffect [] (Except.ok (PageResp.arr [tmplX])) initialTemplatesState).total
        ≠ ([] : List CaseTemplate).length := by
  refine ⟨by decide, by decide⟩

/-- Counterexample to claim C5 as stated: a successful `loadAll` completing
when the clock reads 0 stores the timestamp 0, which the falsiness test
`!lastFetchTime` conflates with "no fetch", so `isStale` returns true
immediately after the successful fetch with zero elapsed time — the claim
requires false there. -/
theorem isStale_zero_clock_cex :
    (loadAllData true (Except.ok (PageResp.arr [])) (Except.ok (PageResp.arr []))
        (Except.ok []) 0 initialDataState).1.lastFetchTime = some 0 ∧
    isStale (some 0) 0 CACHE_DURATION = true := by
  refine ⟨by decide, by decide⟩

/-- Counterexample to claim C6 as stated: two `onChange` events 100 ms apart
where the second clears the box. Only the second callback runs, but it takes
the cache-reset path, so ZERO backend search calls are made — the claim
requires exactly one, using the second term. -/
theorem debounce_empty_second_term_cex :
    runDebounce [(0, "visa"), (100, "")] = [""] ∧
    debouncedBackendCalls [(0, "visa"), (100, "")] = [] := by
  refine ⟨by decide, by decide⟩

/-- Counterexample to claim C8 as stated. Trace `traceA`: the login-driven
load fails, a single-collection refresh then populates the timestamp, and a
background tick invokes `loadAllData` (`bgStarts = 1`) although no
`loadAllData` ever completed successfully. Trace `traceB`: a tick fires
while the load started by the previous tick is still in flight and, far from
being a no-op, starts a second concurrent `loadAllData` (`inFlight = 2`). -/
theorem loadAll_concurrency_cex :
    traceA.all (fun e => !e.isLoadAllSuccess) = true ∧
    (runP traceA).bgStarts = 1 ∧
    (runP traceB).inFlight = 2 := by
  refine ⟨by decide, by decide, by decide⟩

/-- The no-search invariant holds after the mount-time load from a non-empty
cache, with the offset at `min n LIMIT`. -/
theorem initialLoad_inv (cached : List CaseTemplate) (h : cached ≠ []) :
    noSearchInv cached (templatesAfterLoads cached 0) ∧
    (templatesAfterLoads cached 0).offset = min cached.length (LIMIT * 1) := by
  have hpos : 0 < cached.length := List.length_pos.mpr h
  unfold templatesAfterLoads initialLoadTemplatesEffect
  simp only [initialTemplatesState, jsTrim_empty, bne_self_eq_false, Bool.false_eq_true,
    if_false, hpos, if_pos, gt_iff_lt, List.length_take]
  unfold noSearchInv
  refine ⟨⟨?_, ?_, rfl, ?_, rfl⟩, ?_⟩
  · rw [List.take_eq_take]
    simp only [List.length_take]
    omega
  · simp only []
    omega
  · simp only [decide_eq_decide]
    omega
  · omega

/-- A cache-driven Load More preserves the no-search invariant and moves the
offset to `min n (offset + LIMIT)`; in particular it is the identity once the
offset has reached the cache length. -/
theorem handleLoadMore_inv (cached : List CaseTemplate) (s : TemplatesState)
    (hinv : noSearchInv cached s) :
    noSearchInv cached (handleLoadMore cached (Except.error ()) s) ∧
    (handleLoadMore cached (Except.error ()) s).offset = min cached.length (s.offset + LIMIT) := by
  obtain ⟨ht, hoff, htot, hhm, hsq⟩ := hinv
  unfold handleLoadMore
  rw [hsq]
  simp only [jsTrim_empty, bne_self_eq_false, Bool.false_eq_true, if_false,
    List.length_take, List.length_drop, gt_iff_lt]
  unfold noSearchInv
  by_cases hlt : s.offset < cached.length
  · have h25 : 0 < LIMIT := by decide
    have hcond : 0 < LIMIT ⊓ (cached.length - s.offset) := by omega
    rw [if_pos hcond]
    dsimp only
    refine ⟨⟨?_, ?_, htot, rfl, rfl⟩, ?_⟩
    · rw [ht, ← List.take_add, List.take_eq_take]
      omega
    · omega
    · omega
  · have hcond : ¬ 0 < LIMIT ⊓ (cached.length - s.offset) := by omega
    rw [if_neg hcond]
    exact ⟨⟨ht, hoff, htot, hhm, hsq⟩, by omega⟩

/-- After the mount-time load and `k` Load More clicks on a non-empty cache,
the no-search invariant holds with offset `min n (LIMIT * (k + 1))`. -/
theorem templatesAfterLoads_inv (cached : List CaseTemplate) (h : cached ≠ []) (k : Nat) :
    noSearchInv cached (templatesAfterLoads cached k) ∧
    (templatesAfterLoads cached k).offset = min cached.length (LIMIT * (k + 1)) := by
  induction k with
  | zero => exact initialLoad_inv cached h
  | succ k ih =>
      obtain ⟨hinv, hoffk⟩ := ih
      obtain ⟨hinv2, hoff2⟩ := handleLoadMore_inv cached _ hinv
      refine ⟨hinv2, ?_⟩
      show (handleLoadMore cached (Except.error ()) (templatesAfterLoads cached k)).offset = _
      rw [hoff2, hoffk]
      simp only [LIMIT]
      omega

/-- Claim C1 (amended: the cached collection must be non-empty — when it is
empty at mount the component instead issues one backend call and adopts its
response, see the counterexample). For a non-empty cache with
pairwise-distinct identifiers, no active search, and `L = 25`: after the
mount-time load and `k` Load More calls the visible list is exactly the cache
prefix of length `min(n, L * (k + 1))` in cache order, `total = n`, the
offset equals the number of visible items, `hasMore` holds exactly when more
cached items remain, the visible identifiers stay pairwise distinct, and once
the offset reaches `n` a further Load More is a no-op. Instantiating
`n = 60, k = 0..3` yields visible lengths 25, 50, 60, 60 with `hasMore`
true, true, false, false. -/
theorem templates_cache_pagination (cached : List CaseTemplate) (k : Nat)
    (hne : cached ≠ []) (hnd : (cached.map CaseTemplate.id).Nodup) :
    (templatesAfterLoads cached k).templates
        = cached.take (min cached.length (LIMIT * (k + 1))) ∧
    (templatesAfterLoads cached k).total = cached.length ∧
    (templatesAfterLoads cached k).offset = (templatesAfterLoads cached k).templates.length ∧
    (templatesAfterLoads cached k).hasMore
        = decide ((templatesAfterLoads cached k).templates.length < cached.length) ∧
    ((templatesAfterLoads cached k).templates.map CaseTemplate.id).Nodup ∧
    ((templatesAfterLoads cached k).offset = cached.length →
        handleLoadMore cached (Except.error ()) (templatesAfterLoads cached k)
          = templatesAfterLoads cached k) := by
  obtain ⟨⟨ht, hoff, htot, hhm, hsq⟩, hoffeq⟩ := templatesAfterLoads_inv cached hne k
  have hlen : (templatesAfterLoads cached k).templates.length
      = (templatesAfterLoads cached k).offset := by
    rw [ht, List.length_take]
    omega
  refine ⟨?_, htot, hlen.symm, ?_, ?_, ?_⟩
  · rw [ht, hoffeq]
  · rw [hlen, hhm]
  · rw [ht, List.map_take]
    exact hnd.sublist (List.take_sublist _ _)
  · intro hfull
    unfold handleLoadMore
    rw [hsq, hfull]
    simp [jsTrim_empty]

/-- Witness for C1: the 60-template scenario with `k = 3` satisfies the
hypotheses of `templates_cache_pagination`. -/
theorem templates_cache_pagination_witness :
    cached60 ≠ [] ∧ (cached60.map CaseTemplate.id).Nodup ∧
    ((templatesAfterLoads cached60 3).templates
        = cached60.take (min cached60.length (LIMIT * (3 + 1))) ∧
     (templatesAfterLoads cached60 3).total = cached60.length ∧
     (templatesAfterLoads cached60 3).offset = (templatesAfterLoads cached60 3).templates.length ∧
     (templatesAfterLoads cached60 3).hasMore
        = decide ((templatesAfterLoads cached60 3).templates.length < cached60.length) ∧
     ((templatesAfterLoads cached60 3).templates.map CaseTemplate.id).Nodup ∧
     ((templatesAfterLoads cached60 3).offset = cached60.length →
        handleLoadMore cached60 (Except.error ()) (templatesAfterLoads cached60 3)
          = templatesAfterLoads cached60 3)) :=
  ⟨by decide, by decide, templates_cache_pagination cached60 3 (by decide) (by decide)⟩

/-- Claim C3: when the (authenticated) `loadAll` run has any of its three
parallel fetches fail, all three collections and the fetch timestamp are
unchanged from before the call — no partially-replaced state is observable —
and the error is reported (the catch block fires). -/
theorem loadAll_failure_atomic (tRes : Except Unit (PageResp CaseTemplate))
    (cRes : Except Unit (PageResp Client)) (rRes : Except Unit (List Reminder))
    (now : Nat) (s : DataState)
    (h : tRes = Except.error () ∨ cRes = Except.error () ∨ rRes = Except.error ()) :
    (loadAllData true tRes cRes rRes now s).1.clients = s.clients ∧
    (loadAllData true tRes cRes rRes now s).1.templates = s.templates ∧
    (loadAllData true tRes cRes rRes now s).1.reminders = s.reminders ∧
    (loadAllData true tRes cRes rRes now s).1.lastFetchTime = s.lastFetchTime ∧
    (loadAllData true tRes cRes rRes now s).2 = true := by
  cases tRes <;> cases cRes <;> cases rRes <;> simp_all [loadAllData]

/-- Witness for C3: a failing templates fetch alongside succeeding client and
reminder fetches, against the initial cache state. -/
theorem loadAll_failure_atomic_witness :
    ((Except.error () : Except Unit (PageResp CaseTemplate)) = Except.error () ∨
     (Except.ok (PageResp.arr []) : Except Unit (PageResp Client)) = Except.error () ∨
     (Except.ok [] : Except Unit (List Reminder)) = Except.error ()) ∧
    ((loadAllData true (Except.error ()) (Except.ok (PageResp.arr [])) (Except.ok []) 5
        initialDataState).1.clients = initialDataState.clients ∧
     (loadAllData true (Except.error ()) (Except.ok (PageResp.arr [])) (Except.ok []) 5
        initialDataState).1.templates = initialDataState.templates ∧
     (loadAllData true (Except.error ()) (Except.ok (PageResp.arr [])) (Except.ok []) 5
        initialDataState).1.reminders = initialDataState.reminders ∧
     (loadAllData true (Except.error ()) (Except.ok (PageResp.arr [])) (Except.ok []) 5
        initialDataState).1.lastFetchTime = initialDataState.lastFetchTime ∧
     (loadAllData true (Except.error ()) (Except.ok (PageResp.arr [])) (Except.ok []) 5
        initialDataState).2 = true) :=
  ⟨Or.inl rfl,
   loadAll_failure_atomic (Except.error ()) (Except.ok (PageResp.arr [])) (Except.ok []) 5
     initialDataState (Or.inl rfl)⟩

/-- Claim C5 (amended: the clock reading recorded by the successful fetch
must be positive — the falsiness test of the source conflates a stored
timestamp of 0 with "no fetch yet", see the counterexample). `isStale` is
true with no recorded fetch (in particular right after construction and right
after `invalidate`, which clears only the timestamp and none of the
collections), false immediately after a successful `loadAll` recording a
positive time, and in general true for a positive recorded time exactly when
the elapsed time exceeds `maxAge`; a recorded time of 0 is treated as no
fetch. -/
theorem isStale_contract (s : DataState) (tR : PageResp CaseTemplate) (cR : PageResp Client)
    (rR : List Reminder) (t now maxAge : Nat) (ht : 0 < t) :
    isStale initialDataState.lastFetchTime now maxAge = true ∧
    (loadAllData true (Except.ok tR) (Except.ok cR) (Except.ok rR) t s).1.lastFetchTime = some t ∧
    isStale (some t) t maxAge = false ∧
    (isStale (some t) now maxAge = true ↔ (now : Int) - (t : Int) > (maxAge : Int)) ∧
    invalidateCache s = { s with lastFetchTime := none } ∧
    isStale (invalidateCache s).lastFetchTime now maxAge = true ∧
    isStale (some 0) now maxAge = true := by
  have hne : (t != 0) = true := by
    simp only [bne_iff_ne, ne_eq]
    omega
  refine ⟨rfl, by simp [loadAllData], ?_, ?_, rfl, rfl, rfl⟩
  · simp only [isStale, jsTruthyTime, hne, Bool.not_true, Bool.false_eq_true, if_false,
      Option.getD_some, decide_eq_false_iff_not, not_lt]
    omega
  · simp only [isStale, jsTruthyTime, hne, Bool.not_true, Bool.false_eq_true, if_false,
      Option.getD_some, decide_eq_true_eq, gt_iff_lt]

/-- Witness for C5: a successful fetch at clock 1000, probed at clock 400000
with the default five-minute age. -/
theorem isStale_contract_witness :
    (0 : Nat) < 1000 ∧
    (isStale initialDataState.lastFetchTime 400000 CACHE_DURATION = true ∧
     (loadAllData true (Except.ok (PageResp.arr [])) (Except.ok (PageResp.arr []))
        (Except.ok []) 1000 initialDataState).1.lastFetchTime = some 1000 ∧
     isStale (some 1000) 1000 CACHE_DURATION = false ∧
     (isStale (some 1000) 400000 CACHE_DURATION = true ↔
        (400000 : Int) - (1000 : Int) > (CACHE_DURATION : Int)) ∧
     invalidateCache initialDataState = { initialDataState with lastFetchTime := none } ∧
     isStale (invalidateCache initialDataState).lastFetchTime 400000 CACHE_DURATION = true ∧
     isStale (some 0) 400000 CACHE_DURATION = true) :=
  ⟨by decide,
   isStale_contract initialDataState (PageResp.arr []) (PageResp.arr []) [] 1000 400000
     CACHE_DURATION (by decide)⟩

/-- Claim C6 (amended: when the later term trims to the empty string the
single surviving callback takes the cache-reset path and makes NO backend
call — see the counterexample; the claim holds verbatim for a non-empty later
term). For two `onChange` events inside the 500 ms debounce window, only the
later deferred callback ever runs (the earlier timer is cancelled and its
callback never executes), and the backend search calls are exactly one with
the trimmed later term when that is non-empty, and none otherwise. -/
theorem debounce_last_writer_wins (t1 t2 : Nat) (v1 v2 : String)
    (h1 : t1 ≤ t2) (h2 : t2 < t1 + SEARCH_DEBOUNCE_MS) :
    runDebounce [(t1, v1), (t2, v2)] = [v2] ∧
    debouncedBackendCalls [(t1, v1), (t2, v2)]
      = (if jsTrim v2 != "" then [jsTrim v2] else []) := by
  have hnd : ¬ (t1 + SEARCH_DEBOUNCE_MS ≤ t2) := by omega
  have hrd : runDebounce [(t1, v1), (t2, v2)] = [v2] := by
    simp [runDebounce, onSearchChange, fireDue, initDebounce, quiesce, hnd]
  refine ⟨hrd, ?_⟩
  simp only [debouncedBackendCalls, hrd]
  by_cases hc : (jsTrim v2 != "") = true
  · simp [debounceBackendTerm, hc]
  · simp only [Bool.not_eq_true] at hc
    simp [debounceBackendTerm, hc]

/-- Witness for C6: the terms "vis" then "visa" typed 100 ms apart. -/
theorem debounce_last_writer_wins_witness :
    (0 : Nat) ≤ 100 ∧ 100 < 0 + SEARCH_DEBOUNCE_MS ∧
    (runDebounce [(0, "vis"), (100, "visa")] = ["visa"] ∧
     debouncedBackendCalls [(0, "vis"), (100, "visa")]
       = (if jsTrim "visa" != "" then [jsTrim "visa"] else [])) :=
  ⟨by decide, by decide, debounce_last_writer_wins 0 100 "vis" "visa" (by decide) (by decide)⟩

/-- A provider step on an event that records no successful fetch preserves an
absent fetch timestamp, the background-invocation count, and all three
collections. -/
theorem stepP_no_fetch_preserves (s : ProviderState) (e : ProviderEvent)
    (hts : s.data.lastFetchTime = none) (he : e.recordsFetch = false) :
    (stepP s e).data.lastFetchTime = none ∧
    (stepP s e).bgStarts = s.bgStarts ∧
    (stepP s e).data.clients = s.data.clients ∧
    (stepP s e).data.templates = s.data.templates ∧
    (stepP s e).data.reminders = s.data.reminders := by
  cases e with
  | loginStart => simp [stepP, hts]
  | finishSuccess now ts cs rs => simp [ProviderEvent.recordsFetch] at he
  | finishFailure => by_cases h0 : s.inFlight = 0 <;> simp [stepP, h0, hts]
  | refreshSuccess now ts => simp [ProviderEvent.recordsFetch] at he
  | tick now => simp [stepP, autoRefreshRegistered, jsTruthyTime, hts]
  | invalidate => simp [stepP, hts]

/-- With no successful fetch among the events and no fetch timestamp to start
with, a provider run keeps the timestamp absent, makes no background
`loadAllData` invocation, and leaves the collections unchanged. -/
theorem runFrom_no_fetch (events : List ProviderEvent) :
    ∀ s : ProviderState, s.data.lastFetchTime = none →
    (∀ e ∈ events, e.recordsFetch = false) →
    (runFrom s events).data.lastFetchTime = none ∧
    (runFrom s events).bgStarts = s.bgStarts ∧
    (runFrom s events).data.clients = s.data.clients ∧
    (runFrom s events).data.templates = s.data.templates ∧
    (runFrom s events).data.reminders = s.data.reminders := by
  induction events with
  | nil => intro s h _; exact ⟨h, rfl, rfl, rfl, rfl⟩
  | cons e es ih =>
      intro s h hall
      have hstep := stepP_no_fetch_preserves s e h (hall e (List.mem_cons_self e es))
      have hrest := ih (stepP s e) hstep.1 (fun x hx => hall x (List.mem_cons_of_mem e hx))
      have hrun : runFrom s (e :: es) = runFrom (stepP s e) es := by simp [runFrom]
      rw [hrun]
      exact ⟨hrest.1, hrest.2.1.trans hstep.2.1, hrest.2.2.1.trans hstep.2.2.1,
        hrest.2.2.2.1.trans hstep.2.2.2.1, hrest.2.2.2.2.trans hstep.2.2.2.2⟩

/-- Claim C8 (amended: the background check can only invoke `loadAll` after
SOME successful fetch — a full load or a single-collection refresh — has
populated the fetch timestamp, and `loadAll` is NOT suppressed while in
flight: a registered, stale tick always starts another invocation, see the
counterexample). From the start state, a run containing no successful fetch
makes zero background invocations; and a tick whose interval is registered
and stale increments the in-flight count even when a load is already in
flight (`1 ≤ s.inFlight`) — it is never a no-op. -/
theorem background_refresh_guard (events : List ProviderEvent) (s : ProviderState) (now : Nat)
    (hev : ∀ e ∈ events, e.recordsFetch = false)
    (hin : 1 ≤ s.inFlight)
    (hcond : (autoRefreshRegistered s && isStale s.data.lastFetchTime now CACHE_DURATION) = true) :
    (runP events).bgStarts = 0 ∧
    (stepP s (ProviderEvent.tick now)).inFlight = s.inFlight + 1 ∧
    (stepP s (ProviderEvent.tick now)).bgStarts = s.bgStarts + 1 ∧
    stepP s (ProviderEvent.tick now) ≠ s := by
  have h0 := runFrom_no_fetch events initialProviderState rfl hev
  refine ⟨by simpa [runP, initialProviderState] using h0.2.1, ?_, ?_, ?_⟩
  · simp [stepP, hcond]
  · simp [stepP, hcond]
  · intro heq
    have hf : (stepP s (ProviderEvent.tick now)).inFlight = s.inFlight := by rw [heq]
    simp [stepP, hcond] at hf

/-- Witness for C8: a busy provider state (one load in flight, last fetch at
1000) ticked at 400000, and a quiet event list with no successful fetch. -/
theorem background_refresh_guard_witness :
    (∀ e ∈ quietEvents, e.recordsFetch = false) ∧
    1 ≤ busyProviderState.inFlight ∧
    (autoRefreshRegistered busyProviderState &&
       isStale busyProviderState.data.lastFetchTime 400000 CACHE_DURATION) = true ∧
    ((runP quietEvents).bgStarts = 0 ∧
     (stepP busyProviderState (ProviderEvent.tick 400000)).inFlight
        = busyProviderState.inFlight + 1 ∧
     (stepP busyProviderState (ProviderEvent.tick 400000)).bgStarts
        = busyProviderState.bgStarts + 1 ∧
     stepP busyProviderState (ProviderEvent.tick 400000) ≠ busyProviderState) :=
  ⟨by decide, by decide, by decide,
   background_refresh_guard quietEvents busyProviderState 400000 (by decide) (by decide)
     (by decide)⟩

/-- Claim C10: after `invalidate` clears the fetch timestamp the auto-refresh
interval is not registered (the effect returns early on an absent timestamp),
the three collections are untouched, and as long as no successful load or
refresh repopulates the timestamp, no background `loadAllData` invocation
ever happens and the timestamp stays absent. -/
theorem invalidate_disables_auto_refresh (s : ProviderState) (events : List ProviderEvent)
    (hev : ∀ e ∈ events, e.recordsFetch = false) :
    (stepP s ProviderEvent.invalidate).data.lastFetchTime = none ∧
    autoRefreshRegistered (stepP s ProviderEvent.invalidate) = false ∧
    (stepP s ProviderEvent.invalidate).data.clients = s.data.clients ∧
    (stepP s ProviderEvent.invalidate).data.templates = s.data.templates ∧
    (stepP s ProviderEvent.invalidate).data.reminders = s.data.reminders ∧
    (stepP s ProviderEvent.invalidate).bgStarts = s.bgStarts ∧
    (runFrom (stepP s ProviderEvent.invalidate) events).bgStarts = s.bgStarts ∧
    (runFrom (stepP s ProviderEvent.invalidate) events).data.lastFetchTime = none := by
  have hinv : (stepP s ProviderEvent.invalidate).data.lastFetchTime = none := rfl
  have hrest := runFrom_no_fetch events (stepP s ProviderEvent.invalidate) hinv hev
  refine ⟨hinv, ?_, rfl, rfl, rfl, rfl, ?_, hrest.1⟩
  · simp [autoRefreshRegistered, stepP, jsTruthyTime]
  · simpa using hrest.2.1

/-- Witness for C10: invalidating the busy provider state and running the
quiet event list. -/
theorem invalidate_disables_auto_refresh_witness :
    (∀ e ∈ quietEvents, e.recordsFetch = false) ∧
    ((stepP busyProviderState ProviderEvent.invalidate).data.lastFetchTime = none ∧
     autoRefreshRegistered (stepP busyProviderState ProviderEvent.invalidate) = false ∧
     (stepP busyProviderState ProviderEvent.invalidate).data.clients
        = busyProviderState.data.clients ∧
     (stepP busyProviderState ProviderEvent.invalidate).data.templates
        = busyProviderState.data.templates ∧
     (stepP busyProviderState ProviderEvent.invalidate).data.reminders
        = busyProviderState.data.reminders ∧
     (stepP busyProviderState ProviderEvent.invalidate).bgStarts = busyProviderState.bgStarts ∧
     (runFrom (stepP busyProviderState ProviderEvent.invalidate) quietEvents).bgStarts
        = busyProviderState.bgStarts ∧
     (runFrom (stepP busyProviderState ProviderEvent.invalidate) quietEvents).data.lastFetchTime
        = none) :=
  ⟨by decide, invalidate_disables_auto_refresh busyProviderState quietEvents (by decide)⟩
